import Mathlib

/-!
Shallow embedding of `src/carfollow.py`: the generic `CarFollowLaw` behaviour
and the two concrete car-following laws `IDM` and `Tampere`.

Python floats are modelled as real numbers.  Fallible Python evaluation
(division by zero, `math.sqrt` of a negative number, reading an unset
`__slots__` attribute) is modelled in the `Except PyErr` monad, with the
same left-to-right evaluation order as the Python expressions.

The base kinematic vehicle class and the module constants `DT`, `K_X`,
`W_I`, `U_I` live in the external `vehicles` module, which is not among the
sources; those parts are modelled from the spec and carry a doc comment
saying so.
-/

namespace CarFollow

/-- The Python runtime failures the embedded code can raise:
`ZeroDivisionError` from `/`, `ValueError` from `math.sqrt` of a negative
number, `AttributeError` from reading a never-assigned slot. -/
inductive PyErr where
  | zeroDivision
  | valueError
  | attributeError
deriving DecidableEq

/-- Modelled from the spec: the process-wide physical constants that
`carfollow.py` imports from the missing `vehicles` module — free-flow speed
`U_I`, shockwave speed `W_I`, jam density `K_X` and the fixed simulation
time step `DT`.  The spec fixes no numeric values for them, so they are
carried as parameters of every computation. -/
structure Consts where
  U_I : ℝ
  W_I : ℝ
  K_X : ℝ
  DT : ℝ

/-- Modelled from the spec: the snapshot of a leader vehicle that a
follower's law reads — the leader's prior-step position `x_t` and speed
`v_t` (`veh_lead.x_t`, `veh_lead.v_t` in the code). -/
structure LeadState where
  x_t : ℝ
  v_t : ℝ

/-- Modelled from the spec: the state of the base kinematic vehicle
(`vehicles.Vehicle`, not among the sources) that the laws read and write —
current position `x`, speed `v`, acceleration `a`, the prior-step snapshot
`x_t`, `v_t`, the externally injected control input, and the optional
non-owning leader reference. -/
structure Vehicle where
  x : ℝ
  v : ℝ
  a : ℝ
  x_t : ℝ
  v_t : ℝ
  control : ℝ
  veh_lead : Option LeadState

/-- Modelled from the spec: `shift_state` advances the kinematic memory,
making the current state the new prior-step reference point (the comment in
`step_evolution`: move info from the last time step into current). -/
def Vehicle.shift_state (veh : Vehicle) : Vehicle :=
  { veh with x_t := veh.x, v_t := veh.v }

/-- `C_1 = 0.5`, the Tampere speed-difference coefficient default. -/
def C_1 : ℝ := 0.5

/-- `C_2 = 0.5`, the Tampere spacing coefficient default. -/
def C_2 : ℝ := 0.5

/-- `C_3 = 0.5`, the Tampere free-flow coefficient default. -/
def C_3 : ℝ := 0.5

/-- `B = 1.5`, the IDM comfortable deceleration constant. -/
def B : ℝ := 1.5

/-- `DELTA = 4`, the IDM acceleration exponent default. -/
def DELTA : ℝ := 4

/-- `V_0 = 25`, the IDM desired speed default. -/
def V_0 : ℝ := 25

/-- Python float division: raises `ZeroDivisionError` on a zero divisor. -/
noncomputable def pydiv (x y : ℝ) : Except PyErr ℝ :=
  if y = 0 then .error .zeroDivision else .ok (x / y)

/-- Python `math.sqrt`: raises `ValueError` on a negative argument. -/
noncomputable def pysqrt (x : ℝ) : Except PyErr ℝ :=
  if x < 0 then .error .valueError else .ok (Real.sqrt x)

namespace CarFollowLaw

/-- `CarFollowLaw.u`: the free-flow speed constant. -/
def u (cst : Consts) : ℝ := cst.U_I

/-- `CarFollowLaw.w`: the shockwave speed constant. -/
def w (cst : Consts) : ℝ := cst.W_I

/-- `CarFollowLaw.k_x`: the jam density constant. -/
def k_x (cst : Consts) : ℝ := cst.K_X

/-- `CarFollowLaw.s0`: minimum spacing `1 / k_x`. -/
noncomputable def s0 (cst : Consts) : Except PyErr ℝ :=
  pydiv 1 (k_x cst)

/-- `CarFollowLaw.dv`: the speed of the leader minus own prior-step speed
when a leader exists, else `0`. -/
def dv (veh : Vehicle) : ℝ :=
  match veh.veh_lead with
  | some l => l.v_t - veh.v_t
  | none => 0

/-- `CarFollowLaw.s`: spacing, the leader's position minus own prior-step
position when a leader exists, else `0`. -/
def s (veh : Vehicle) : ℝ :=
  match veh.veh_lead with
  | some l => l.x_t - veh.x_t
  | none => 0

/-- `CarFollowLaw.T`: the reaction time, equal to the simulation step `DT`. -/
def T (cst : Consts) : ℝ := cst.DT

end CarFollowLaw

/-- The `IDM` object: the wrapped vehicle state plus the three `__slots__`
`_b`, `_delta`, `_v0`; a slot holds `none` while it was never assigned
(reading it then raises `AttributeError`). -/
structure IDM where
  veh : Vehicle
  _b : Option ℝ
  _delta : Option ℝ
  _v0 : Option ℝ

namespace IDM

/-- `IDM.__init__(x0, v0, veh_lead)`: only the base constructor runs, so none
of the slots `_b`, `_delta`, `_v0` is assigned.  Modelled from the spec for
the base part: the base vehicle stores the initial position and speed (also
as the prior-step snapshot) and starts with zero acceleration and control. -/
def init (x0 v0 : ℝ) (veh_lead : Option LeadState) : IDM :=
  { veh := { x := x0, v := v0, a := 0, x_t := x0, v_t := v0, control := 0,
             veh_lead := veh_lead },
    _b := none, _delta := none, _v0 := none }

/-- `IDM.b` getter: returns the module constant `B`; it never reads the
`_b` slot. -/
def b (_st : IDM) : ℝ := B

/-- `IDM.b` setter: writes the `_b` slot (which the getter ignores). -/
def set_b (st : IDM) (value : ℝ) : IDM := { st with _b := some value }

/-- `IDM.delta` getter: reads the `_delta` slot; `AttributeError` if the
slot was never assigned. -/
def delta (st : IDM) : Except PyErr ℝ :=
  match st._delta with
  | some d => .ok d
  | none => .error .attributeError

/-- `IDM.delta` setter. -/
def set_delta (st : IDM) (value : ℝ) : IDM := { st with _delta := some value }

/-- `IDM.v0` getter: reads the `_v0` slot; `AttributeError` if the slot was
never assigned. -/
def v0 (st : IDM) : Except PyErr ℝ :=
  match st._v0 with
  | some d => .ok d
  | none => .error .attributeError

/-- `IDM.v0` setter. -/
def set_v0 (st : IDM) (value : ℝ) : IDM := { st with _v0 := some value }

/-- `IDM.s_star`: desired spacing
`s0 + max(0, v*T + (v*dv) / (2*sqrt(a*b)))`, with Python's evaluation of the
two divisions and the square root. -/
noncomputable def s_star (cst : Consts) (st : IDM) : Except PyErr ℝ := do
  let h ← CarFollowLaw.s0 cst
  let r ← pysqrt (st.veh.a * st.b)
  let q ← pydiv (st.veh.v * CarFollowLaw.dv st.veh) (2 * r)
  return h + max 0 (st.veh.v * CarFollowLaw.T cst + q)

/-- `IDM.acel`: `a * (1 - (v / v0) ** delta - (s_star() / s) ** 2)`,
evaluated left to right as in Python; the `vd` argument is never read. -/
noncomputable def acel (cst : Consts) (st : IDM) (_vd : ℝ) : Except PyErr ℝ := do
  let w ← st.v0
  let q1 ← pydiv st.veh.v w
  let d ← st.delta
  let ss ← st.s_star cst
  let q2 ← pydiv ss (CarFollowLaw.s st.veh)
  return st.veh.a * (1 - q1 ^ d - q2 ^ 2)

/-- `IDM.car_following`: with a leader, set `a` to `acel(vd)`; without one,
set `a` to the control input. -/
noncomputable def car_following (cst : Consts) (st : IDM) (vd : ℝ) :
    Except PyErr IDM :=
  match st.veh.veh_lead with
  | some _ => do
      let a ← st.acel cst vd
      return { st with veh := { st.veh with a := a } }
  | none => .ok { st with veh := { st.veh with a := st.veh.control } }

/-- `CarFollowLaw.step_evolution` specialised to `IDM`: shift the kinematic
memory, record the control input, then run `car_following`. -/
noncomputable def step_evolution (cst : Consts) (st : IDM)
    (v_d control : ℝ) : Except PyErr IDM :=
  let st1 : IDM := { st with veh := st.veh.shift_state }
  let st2 : IDM := { st1 with veh := { st1.veh with control := control } }
  st2.car_following cst v_d

end IDM

/-- The `Tampere` object: the wrapped vehicle state plus the coefficient
slots `_c1`, `_c2`, `_c3`, always assigned by `set_parameters` in the
constructor. -/
structure Tampere where
  veh : Vehicle
  _c1 : ℝ
  _c2 : ℝ
  _c3 : ℝ

namespace Tampere

/-- `Tampere.__init__(x0, v0, veh_lead, c1, c2, c3)`: the base constructor
followed by `set_parameters` (defaults `C_1`, `C_2`, `C_3`).  The base part
is modelled from the spec as in `IDM.init`. -/
def init (x0 v0 : ℝ) (veh_lead : Option LeadState) (c1 c2 c3 : ℝ) : Tampere :=
  { veh := { x := x0, v := v0, a := 0, x_t := x0, v_t := v0, control := 0,
             veh_lead := veh_lead },
    _c1 := c1, _c2 := c2, _c3 := c3 }

/-- `Tampere.c1` getter. -/
def c1 (st : Tampere) : ℝ := st._c1

/-- `Tampere.c2` getter. -/
def c2 (st : Tampere) : ℝ := st._c2

/-- `Tampere.c3` getter. -/
def c3 (st : Tampere) : ℝ := st._c3

/-- `Tampere.s_d`: desired spacing `s0 + 1 / (w * k_x) * v`. -/
noncomputable def s_d (cst : Consts) (st : Tampere) : Except PyErr ℝ := do
  let h ← CarFollowLaw.s0 cst
  let g ← pydiv 1 (CarFollowLaw.w cst * CarFollowLaw.k_x cst)
  return h + g * st.veh.v

/-- `Tampere.cong_acc`: the braking term `c1 * dv + c2 * (s - s_d)`. -/
noncomputable def cong_acc (cst : Consts) (st : Tampere) : Except PyErr ℝ := do
  let sd ← st.s_d cst
  return st.c1 * CarFollowLaw.dv st.veh + st.c2 * (CarFollowLaw.s st.veh - sd)

/-- `Tampere.free_acc`: the acceleration term `c3 * (vd - v_t)`. -/
def free_acc (st : Tampere) (vd : ℝ) : ℝ :=
  st.c3 * (vd - st.veh.v_t)

/-- `Tampere.acel`: `min(cong_acc(), free_acc(vd))`. -/
noncomputable def acel (cst : Consts) (st : Tampere) (vd : ℝ) :
    Except PyErr ℝ := do
  let c ← st.cong_acc cst
  return min c (st.free_acc vd)

/-- `Tampere.car_following`: with a leader, set `a` to `acel(vd)`; without
one, set `a` to the control input. -/
noncomputable def car_following (cst : Consts) (st : Tampere) (vd : ℝ) :
    Except PyErr Tampere :=
  match st.veh.veh_lead with
  | some _ => do
      let a ← st.acel cst vd
      return { st with veh := { st.veh with a := a } }
  | none => .ok { st with veh := { st.veh with a := st.veh.control } }

/-- `CarFollowLaw.step_evolution` specialised to `Tampere`. -/
noncomputable def step_evolution (cst : Consts) (st : Tampere)
    (v_d control : ℝ) : Except PyErr Tampere :=
  let st1 : Tampere := { st with veh := st.veh.shift_state }
  let st2 : Tampere := { st1 with veh := { st1.veh with control := control } }
  st2.car_following cst v_d

end Tampere

/-- Concrete physical constants for witnesses: free-flow speed 25,
shockwave speed 2, jam density 1, time step 1. -/
def cst0 : Consts := ⟨25, 2, 1, 1⟩

/-- Concrete constants with a zero shockwave speed, so that
`w * k_x = 0`. -/
def cstZ : Consts := ⟨25, 0, 1, 1⟩

/-- A leader snapshot two metres ahead, standing still. -/
def lead0 : LeadState := ⟨2, 0⟩

/-- An IDM vehicle at rest behind `lead0`, prior-step acceleration `1`,
slots `_delta = 4` and `_v0 = 25` assigned. -/
def stA : IDM := ⟨⟨0, 0, 1, 0, 0, 0, some lead0⟩, none, some 4, some 25⟩

/-- The same IDM vehicle as `stA`, except its prior-step acceleration
is `2`. -/
def stB : IDM := ⟨⟨0, 0, 2, 0, 0, 0, some lead0⟩, none, some 4, some 25⟩

/-- An IDM vehicle at the point the spec calls equilibrium: speed `25`
equal to the stored `_v0`, leader at spacing `26`, which is exactly the
desired spacing `s_star` there (with `cst0`); prior-step acceleration `1`. -/
def stC : IDM := ⟨⟨0, 25, 1, 0, 25, 0, some ⟨26, 25⟩⟩, none, some 4, some 25⟩

/-- A Tampere vehicle at speed `4` behind a leader ten metres ahead at the
same speed, coefficients all `1`. -/
def stT0 : Tampere := ⟨⟨0, 4, 0, 0, 4, 0, some ⟨10, 4⟩⟩, 1, 1, 1⟩

/-- An IDM vehicle whose leader sits at the same position: spacing `0`. -/
def stZ : IDM := ⟨⟨0, 0, 1, 0, 0, 0, some ⟨0, 0⟩⟩, none, some 4, some 25⟩

/-- A Tampere vehicle with a leader five metres ahead. -/
def stW : Tampere := ⟨⟨0, 0, 0, 0, 0, 0, some ⟨5, 0⟩⟩, 1, 1, 1⟩

end CarFollow

namespace CarFollow

theorem ok_bind {A B : Type} (x : A) (f : A → Except PyErr B) :
    (Except.ok x >>= f : Except PyErr B) = f x := rfl

theorem error_bind {A B : Type} (e : PyErr) (f : A → Except PyErr B) :
    (Except.error e >>= f : Except PyErr B) = .error e := rfl

theorem pure_eq_ok {A : Type} (x : A) : (pure x : Except PyErr A) = .ok x := rfl

theorem pydiv_ok {x y : ℝ} (h : y ≠ 0) : pydiv x y = .ok (x / y) := by
  simp [pydiv, h]

theorem pydiv_zero_denom {x y : ℝ} (h : y = 0) :
    pydiv x y = .error .zeroDivision := by
  simp [pydiv, h]

theorem pysqrt_ok {x : ℝ} (h : 0 ≤ x) : pysqrt x = .ok (Real.sqrt x) := by
  simp [pysqrt, not_lt.mpr h]

theorem v0_eval {st : IDM} {V : ℝ} (h : st._v0 = some V) :
    IDM.v0 st = .ok V := by
  simp [IDM.v0, h]

theorem delta_eval {st : IDM} {D : ℝ} (h : st._delta = some D) :
    IDM.delta st = .ok D := by
  simp [IDM.delta, h]

theorem s_star_eval (cst : Consts) (st : IDM) (hk : cst.K_X ≠ 0)
    (hab : 0 < st.veh.a * st.b) :
    IDM.s_star cst st =
      .ok (1 / cst.K_X + max 0 (st.veh.v * cst.DT +
        st.veh.v * CarFollowLaw.dv st.veh / (2 * Real.sqrt (st.veh.a * st.b)))) := by
  have hk2 : CarFollowLaw.k_x cst ≠ 0 := hk
  rw [IDM.s_star, CarFollowLaw.s0, pydiv_ok hk2, pysqrt_ok (le_of_lt hab)]
  rw [ok_bind, ok_bind, pydiv_ok (by positivity), ok_bind]
  simp [CarFollowLaw.k_x, CarFollowLaw.T, pure_eq_ok]

theorem acel_eval (cst : Consts) (st : IDM) (V D : ℝ)
    (hv0 : st._v0 = some V) (hd : st._delta = some D) (hV : V ≠ 0)
    (hk : cst.K_X ≠ 0) (hab : 0 < st.veh.a * st.b)
    (hs : CarFollowLaw.s st.veh ≠ 0) (vd : ℝ) :
    IDM.acel cst st vd =
      .ok (st.veh.a * (1 - (st.veh.v / V) ^ D -
        ((1 / cst.K_X + max 0 (st.veh.v * cst.DT +
            st.veh.v * CarFollowLaw.dv st.veh /
              (2 * Real.sqrt (st.veh.a * st.b)))) / CarFollowLaw.s st.veh) ^ 2)) := by
  rw [IDM.acel, v0_eval hv0, ok_bind, pydiv_ok hV, ok_bind, delta_eval hd,
    ok_bind, s_star_eval cst st hk hab, ok_bind, pydiv_ok hs, ok_bind]
  rfl

theorem acel_stA_eval : IDM.acel cst0 stA 0 = .ok (3 / 4) := by
  have h := acel_eval cst0 stA 25 4 rfl rfl (by norm_num)
    (by norm_num [cst0]) (by norm_num [stA, IDM.b, B])
    (by norm_num [CarFollowLaw.s, stA, lead0]) 0
  rw [h]
  norm_num [stA, lead0, cst0, CarFollowLaw.s, CarFollowLaw.dv,
    Real.zero_rpow]

theorem acel_stB_eval : IDM.acel cst0 stB 0 = .ok (3 / 2) := by
  have h := acel_eval cst0 stB 25 4 rfl rfl (by norm_num)
    (by norm_num [cst0]) (by norm_num [stB, IDM.b, B])
    (by norm_num [CarFollowLaw.s, stB, lead0]) 0
  rw [h]
  norm_num [stB, lead0, cst0, CarFollowLaw.s, CarFollowLaw.dv,
    Real.zero_rpow]

/-- C10: the `vd` argument of `IDM.acel` and `IDM.car_following` is never
read, so any two desired-speed arguments give the same result (the same
value or the same failure). -/
theorem acel_ignores_vd (cst : Consts) (st : IDM) (vd1 vd2 : ℝ) :
    IDM.acel cst st vd1 = IDM.acel cst st vd2 ∧
    IDM.car_following cst st vd1 = IDM.car_following cst st vd2 :=
  ⟨rfl, rfl⟩

/-- C8: with no leader the derived quantities `dv` and `s` are both `0`;
with a leader they are the leader's speed minus own speed and the leader's
position minus own position. -/
theorem dv_s_convention (veh : Vehicle) :
    (veh.veh_lead = none → CarFollowLaw.dv veh = 0 ∧ CarFollowLaw.s veh = 0) ∧
    ∀ l : LeadState, veh.veh_lead = some l →
      CarFollowLaw.dv veh = l.v_t - veh.v_t ∧
      CarFollowLaw.s veh = l.x_t - veh.x_t := by
  constructor
  · intro h
    simp [CarFollowLaw.dv, CarFollowLaw.s, h]
  · intro l h
    simp [CarFollowLaw.dv, CarFollowLaw.s, h]

/-- C2: a freshly constructed `IDM` (only `x0`, `v0` and a leader passed to
the constructor, no setter invoked) raises `AttributeError` from
`car_following` — and hence from `step_evolution` — because the constructor
never assigns the slots `_v0` and `_delta` that the property getters read. -/
theorem fresh_idm_attribute_error (cst : Consts) (x0 v0 : ℝ) (l : LeadState)
    (v_d ctl : ℝ) :
    IDM.car_following cst (IDM.init x0 v0 (some l)) v_d =
      .error .attributeError ∧
    IDM.step_evolution cst (IDM.init x0 v0 (some l)) v_d ctl =
      .error .attributeError := by
  constructor
  · simp [IDM.car_following, IDM.init, IDM.acel, IDM.v0, error_bind]
  · simp [IDM.step_evolution, IDM.car_following, IDM.init, IDM.acel, IDM.v0,
      Vehicle.shift_state, error_bind]

/-- C1: for any coefficients, speeds and spacing, `Tampere.acel vd` is the
minimum of the congestion branch `c1 * dv + c2 * (s - s_d)` — with
`s_d = s0 + (1 / (w * k_x)) * v` the speed-dependent desired spacing — and
the free-flow branch `c3 * (vd - v)`.  Stated for a vehicle with a leader
whose prior-step speed snapshot `v_t` agrees with its speed `v`, as
`step_evolution` arranges before calling the law. -/
theorem tampere_acel_min_rule (cst : Consts) (st : Tampere) (l : LeadState)
    (vd : ℝ) (hl : st.veh.veh_lead = some l) (hk : cst.K_X ≠ 0)
    (hwk : cst.W_I * cst.K_X ≠ 0) (hv : st.veh.v_t = st.veh.v) :
    Tampere.acel cst st vd =
      .ok (min
        (st._c1 * (l.v_t - st.veh.v) +
          st._c2 * ((l.x_t - st.veh.x_t) -
            (1 / cst.K_X + 1 / (cst.W_I * cst.K_X) * st.veh.v)))
        (st._c3 * (vd - st.veh.v))) := by
  have hk2 : CarFollowLaw.k_x cst ≠ 0 := hk
  have hwk2 : CarFollowLaw.w cst * CarFollowLaw.k_x cst ≠ 0 := hwk
  rw [Tampere.acel, Tampere.cong_acc, Tampere.s_d, CarFollowLaw.s0,
    pydiv_ok hk2, ok_bind, pydiv_ok hwk2, ok_bind]
  simp only [ok_bind, pure_eq_ok, Tampere.c1, Tampere.c2, Tampere.c3,
    Tampere.free_acc, CarFollowLaw.dv, CarFollowLaw.s, CarFollowLaw.w,
    CarFollowLaw.k_x, hl, hv]

/-- Witness for C1 at concrete inputs: the congestion branch is `7`, the
free-flow branch is `-1`, and the law returns their minimum `-1`. -/
theorem tampere_acel_min_rule_witness : Tampere.acel cst0 stT0 3 = .ok (-1) := by
  have h := tampere_acel_min_rule cst0 stT0 ⟨10, 4⟩ 3 rfl
    (by norm_num [cst0]) (by norm_num [cst0]) rfl
  rw [h]
  norm_num [stT0, cst0, min_def]

/-- C3 counterexample: the leading factor of `IDM.acel` is not a fixed
maximum-acceleration parameter.  The states `stA` and `stB` agree on every
law parameter and on the whole bracket
`1 - (v / v0) ** delta - (s_star / s) ** 2` (its value is `3/4` at both),
yet `acel` returns `3/4` at `stA` and `3/2` at `stB`: no single constant
`A` can satisfy the claimed formula at both states, because the factor is
the state's own prior acceleration (`1` and `2` respectively). -/
theorem idm_fixed_amax_cex :
    ¬ ∃ A : ℝ,
      IDM.acel cst0 stA 0 = .ok (A * (1 - ((0 : ℝ) / 25) ^ DELTA - ((1 : ℝ) / 2) ^ 2)) ∧
      IDM.acel cst0 stB 0 = .ok (A * (1 - ((0 : ℝ) / 25) ^ DELTA - ((1 : ℝ) / 2) ^ 2)) := by
  rintro ⟨A, h1, h2⟩
  rw [acel_stA_eval] at h1
  rw [acel_stB_eval] at h2
  simp only [Except.ok.injEq] at h1 h2
  rw [← h2] at h1
  norm_num at h1

/-- C3 amended: with a leader, `IDM.acel` equals
`a * (1 - (v / v0) ** delta - (s_star / s) ** 2)`, where the leading factor
`a` is the vehicle's acceleration attribute read from the base vehicle
state — at the point the law runs, the acceleration computed at the
previous step — not a fixed maximum-acceleration parameter. -/
theorem idm_acel_prev_accel_factor (cst : Consts) (st : IDM) (V D : ℝ)
    (hv0 : st._v0 = some V) (hd : st._delta = some D) (hV : V ≠ 0)
    (hk : cst.K_X ≠ 0) (hab : 0 < st.veh.a * st.b)
    (hs : CarFollowLaw.s st.veh ≠ 0) (vd : ℝ) :
    IDM.acel cst st vd =
      .ok (st.veh.a * (1 - (st.veh.v / V) ^ D -
        ((1 / cst.K_X + max 0 (st.veh.v * cst.DT +
            st.veh.v * CarFollowLaw.dv st.veh /
              (2 * Real.sqrt (st.veh.a * st.b)))) / CarFollowLaw.s st.veh) ^ 2)) :=
  acel_eval cst st V D hv0 hd hV hk hab hs vd

/-- Witness for the amended C3 at `stA`: the factor is the prior
acceleration `1` and the result is `3/4`. -/
theorem idm_acel_prev_accel_factor_witness : IDM.acel cst0 stA 0 = .ok (3 / 4) := by
  have h := idm_acel_prev_accel_factor cst0 stA 25 4 rfl rfl (by norm_num)
    (by norm_num [cst0]) (by norm_num [stA, IDM.b, B])
    (by norm_num [CarFollowLaw.s, stA, lead0]) 0
  rw [h]
  norm_num [stA, lead0, cst0, CarFollowLaw.s, CarFollowLaw.dv, Real.zero_rpow]

/-- C4: the desired spacing `IDM.s_star` equals
`s0 + max(0, v * T + (v * dv) / (2 * sqrt(a * b)))`, where `a` is the
vehicle's own acceleration attribute — the previous step's acceleration at
the point the law reads it — and `b` the comfortable deceleration. -/
theorem idm_s_star_spec (cst : Consts) (st : IDM) (hk : cst.K_X ≠ 0)
    (hab : 0 < st.veh.a * st.b) :
    IDM.s_star cst st =
      .ok (1 / cst.K_X + max 0 (st.veh.v * cst.DT +
        st.veh.v * CarFollowLaw.dv st.veh / (2 * Real.sqrt (st.veh.a * st.b)))) :=
  s_star_eval cst st hk hab

/-- Witness for C4 at `stA`: the desired spacing evaluates to `1`. -/
theorem idm_s_star_spec_witness : IDM.s_star cst0 stA = .ok 1 := by
  have h := idm_s_star_spec cst0 stA (by norm_num [cst0])
    (by norm_num [stA, IDM.b, B])
  rw [h]
  norm_num [stA, lead0, cst0, CarFollowLaw.dv]

/-- C5 counterexample: at `stC` the stored desired speed equals the own
speed (`_v0 = some 25 = some v`), the spacing equals the desired spacing
`s_star` (both are `26`), and yet the computed acceleration is `-1`, not
`0`: under those conditions the bracket is `1 - 1 - 1 = -1`, so the law
returns minus the prior acceleration. -/
theorem idm_equilibrium_zero_cex :
    stC._v0 = some stC.veh.v ∧
    IDM.s_star cst0 stC = .ok (CarFollowLaw.s stC.veh) ∧
    IDM.acel cst0 stC 25 = .ok (-1) ∧ (-1 : ℝ) ≠ 0 := by
  refine ⟨rfl, ?_, ?_, by norm_num⟩
  · have h := s_star_eval cst0 stC (by norm_num [cst0])
      (by norm_num [stC, IDM.b, B])
    rw [h]
    norm_num [stC, cst0, CarFollowLaw.dv, CarFollowLaw.s]
  · have h := acel_eval cst0 stC 25 4 rfl rfl (by norm_num)
      (by norm_num [cst0]) (by norm_num [stC, IDM.b, B])
      (by norm_num [CarFollowLaw.s, stC]) 25
    rw [h]
    norm_num [stC, cst0, CarFollowLaw.s, CarFollowLaw.dv]

/-- C5 amended: when the stored desired speed `v0` equals the own speed and
the spacing equals the desired spacing `s_star`, the computed acceleration
is exactly minus the vehicle's prior acceleration (so it is `0` only when
that prior acceleration is `0`, a case in which the computation of `s_star`
itself fails with a division by zero instead). -/
theorem idm_equilibrium_neg_prev (cst : Consts) (st : IDM) (V D : ℝ)
    (hv0 : st._v0 = some V) (hd : st._delta = some D)
    (hvv : st.veh.v = V) (hV : V ≠ 0)
    (hseq : IDM.s_star cst st = .ok (CarFollowLaw.s st.veh))
    (hs : CarFollowLaw.s st.veh ≠ 0) (vd : ℝ) :
    IDM.acel cst st vd = .ok (-st.veh.a) := by
  rw [IDM.acel, v0_eval hv0, ok_bind, pydiv_ok hV, ok_bind, delta_eval hd,
    ok_bind, hseq, ok_bind, pydiv_ok hs, ok_bind, pure_eq_ok]
  rw [hvv, div_self hV, Real.one_rpow, div_self hs]
  norm_num

/-- Witness for the amended C5 at `stC`: the acceleration is `-1`, minus
the prior acceleration `1`. -/
theorem idm_equilibrium_neg_prev_witness : IDM.acel cst0 stC 25 = .ok (-1) := by
  have hseq : IDM.s_star cst0 stC = .ok (CarFollowLaw.s stC.veh) := by
    have h := s_star_eval cst0 stC (by norm_num [cst0])
      (by norm_num [stC, IDM.b, B])
    rw [h]
    norm_num [stC, cst0, CarFollowLaw.dv, CarFollowLaw.s]
  have h := idm_equilibrium_neg_prev cst0 stC 25 4 rfl rfl rfl
    (by norm_num) hseq
    (by norm_num [CarFollowLaw.s, stC]) 25
  rw [h]
  norm_num [stC]

/-- Changing only the `_b`, `_delta`, `_v0` slots that two IDM states do not
share leaves `acel` unchanged when the shared components agree. -/
theorem acel_congr_slots (cst : Consts) (st1 st2 : IDM) (hveh : st1.veh = st2.veh)
    (hdelta : st1._delta = st2._delta) (hv02 : st1._v0 = st2._v0) (vd : ℝ) :
    IDM.acel cst st1 vd = IDM.acel cst st2 vd := by
  simp only [IDM.acel, IDM.v0, IDM.delta, IDM.s_star, IDM.b, hveh, hdelta, hv02]

/-- The vehicle component of a `car_following` outcome depends only on the
vehicle component and the `_delta`, `_v0` slots of the input state. -/
theorem car_following_veh_congr (cst : Consts) (st1 st2 : IDM)
    (hveh : st1.veh = st2.veh) (hdelta : st1._delta = st2._delta)
    (hv02 : st1._v0 = st2._v0) (vd : ℝ) :
    (IDM.car_following cst st1 vd).map (fun s2 => s2.veh) =
      (IDM.car_following cst st2 vd).map (fun s2 => s2.veh) := by
  have he := acel_congr_slots cst st1 st2 hveh hdelta hv02 vd
  rw [IDM.car_following, IDM.car_following, hveh, he]
  cases hlead : st2.veh.veh_lead with
  | none => simp [Except.map, hveh]
  | some l =>
    cases IDM.acel cst st2 vd with
    | error e => simp [Except.map, error_bind]
    | ok a => simp [Except.map, ok_bind, pure_eq_ok, hveh]

/-- C9: the `b` property of an IDM vehicle always evaluates to the module
constant `B = 1.5`: the setter writes the `_b` slot but the getter never
reads it, so assigning `b` changes no later computation — `s_star`, `acel`,
`car_following` and `step_evolution` are unaffected. -/
theorem b_setter_inert (st : IDM) (xv : ℝ) (cst : Consts) (vd v_d ctl : ℝ) :
    IDM.b st = B ∧ B = 1.5 ∧ IDM.b (IDM.set_b st xv) = B ∧
    (IDM.set_b st xv)._b = some xv ∧
    IDM.s_star cst (IDM.set_b st xv) = IDM.s_star cst st ∧
    IDM.acel cst (IDM.set_b st xv) vd = IDM.acel cst st vd ∧
    (IDM.car_following cst (IDM.set_b st xv) vd).map (fun s2 => s2.veh) =
      (IDM.car_following cst st vd).map (fun s2 => s2.veh) ∧
    (IDM.step_evolution cst (IDM.set_b st xv) v_d ctl).map (fun s2 => s2.veh) =
      (IDM.step_evolution cst st v_d ctl).map (fun s2 => s2.veh) := by
  refine ⟨rfl, rfl, rfl, rfl, rfl, rfl, ?_, ?_⟩
  · exact car_following_veh_congr cst (IDM.set_b st xv) st rfl rfl rfl vd
  · rw [IDM.step_evolution, IDM.step_evolution]
    refine car_following_veh_congr cst _ _ ?_ ?_ ?_ v_d <;> rfl

/-- C6: a leaderless vehicle, under either law, gets its acceleration set
exactly to the control input by `step_evolution`, whatever the desired
speed argument is. -/
theorem leaderless_control_pass (cst : Consts) (stI : IDM) (stT : Tampere)
    (hI : stI.veh.veh_lead = none) (hT : stT.veh.veh_lead = none)
    (v_d X : ℝ) :
    (IDM.step_evolution cst stI v_d X).map (fun s2 => s2.veh.a) = .ok X ∧
    (Tampere.step_evolution cst stT v_d X).map (fun s2 => s2.veh.a) = .ok X := by
  constructor
  · simp [IDM.step_evolution, IDM.car_following, Vehicle.shift_state, hI,
      Except.map]
  · simp [Tampere.step_evolution, Tampere.car_following, Vehicle.shift_state,
      hT, Except.map]

/-- Witness for C6: freshly constructed leaderless vehicles of both laws,
desired speed `99`, control `7`: the new acceleration is `7`. -/
theorem leaderless_control_pass_witness :
    (IDM.step_evolution cst0 (IDM.init 0 10 none) 99 7).map
        (fun s2 => s2.veh.a) = .ok 7 ∧
    (Tampere.step_evolution cst0 (Tampere.init 0 10 none 1 1 1) 99 7).map
        (fun s2 => s2.veh.a) = .ok 7 :=
  leaderless_control_pass cst0 (IDM.init 0 10 none)
    (Tampere.init 0 10 none 1 1 1) rfl rfl 99 7

/-- C7: the degenerate configurations surface as `ZeroDivisionError`
rather than a silently returned value: an IDM vehicle with a leader at
spacing `0`, and a Tampere vehicle with a leader when
`shockwaveSpeed * jamDensity = 0`. -/
theorem zero_division_surfaces (cst : Consts) (stI : IDM) (stT : Tampere)
    (l l2 : LeadState) (V D : ℝ)
    (_hIl : stI.veh.veh_lead = some l) (hv0 : stI._v0 = some V)
    (hd : stI._delta = some D) (hab : 0 ≤ stI.veh.a * stI.b)
    (hs : CarFollowLaw.s stI.veh = 0)
    (_hTl : stT.veh.veh_lead = some l2) (hwk : cst.W_I * cst.K_X = 0)
    (vd : ℝ) :
    IDM.acel cst stI vd = .error .zeroDivision ∧
    Tampere.acel cst stT vd = .error .zeroDivision := by
  constructor
  · rw [IDM.acel, v0_eval hv0, ok_bind]
    by_cases hV : V = 0
    · rw [pydiv_zero_denom hV, error_bind]
    · rw [pydiv_ok hV, ok_bind, delta_eval hd, ok_bind]
      by_cases hK : cst.K_X = 0
      · have hst : IDM.s_star cst stI = .error .zeroDivision := by
          rw [IDM.s_star, CarFollowLaw.s0,
            pydiv_zero_denom (show CarFollowLaw.k_x cst = 0 from hK),
            error_bind]
        rw [hst, error_bind]
      · by_cases hab0 : stI.veh.a * stI.b = 0
        · have hst : IDM.s_star cst stI = .error .zeroDivision := by
            rw [IDM.s_star, CarFollowLaw.s0,
              pydiv_ok (show CarFollowLaw.k_x cst ≠ 0 from hK), ok_bind,
              hab0, pysqrt_ok le_rfl, ok_bind, Real.sqrt_zero,
              pydiv_zero_denom (by norm_num), error_bind]
          rw [hst, error_bind]
        · have hab2 : 0 < stI.veh.a * stI.b :=
            lt_of_le_of_ne hab (Ne.symm hab0)
          rw [s_star_eval cst stI hK hab2, ok_bind, pydiv_zero_denom hs,
            error_bind]
  · rw [Tampere.acel, Tampere.cong_acc, Tampere.s_d, CarFollowLaw.s0]
    by_cases hK : cst.K_X = 0
    · rw [pydiv_zero_denom (show CarFollowLaw.k_x cst = 0 from hK)]
      simp only [error_bind]
    · rw [pydiv_ok (show CarFollowLaw.k_x cst ≠ 0 from hK), ok_bind,
        pydiv_zero_denom
          (show CarFollowLaw.w cst * CarFollowLaw.k_x cst = 0 from hwk)]
      simp only [error_bind]

/-- Witness for C7: `stZ` has its leader at spacing `0` and `cstZ` has a
zero shockwave speed; both computations fail with `ZeroDivisionError`. -/
theorem zero_division_surfaces_witness :
    IDM.acel cstZ stZ 25 = .error .zeroDivision ∧
    Tampere.acel cstZ stW 25 = .error .zeroDivision :=
  zero_division_surfaces cstZ stZ stW ⟨0, 0⟩ ⟨5, 0⟩ 25 4 rfl rfl rfl
    (by norm_num [stZ, IDM.b, B]) (by norm_num [CarFollowLaw.s, stZ]) rfl
    (by norm_num [cstZ]) 25

end CarFollow
